import Mathlib

/-!
Verification of the async_executors task-handle core against its
natural-language specification.

The development shallowly embeds the parts of the crate relevant to the
claims:

* `src/src/remote_handle.rs` — the Cancellable Remote Pair
  (`Remote` / `RemoteHandle`, `remote_handle`);
* `src/src/core/join_handle.rs` — the uniform `JoinHandle` with its
  `InnerJh` variants and their `detach` / `poll` / `Drop` behaviour;
* `src/src/runtime/tokio_jh.rs` and `src/src/runtime/async_std.rs` —
  the native join-handle wrappers;
* the fire-and-forget spawn implementations of the backend adapters and
  the `spawn_blocking` implementations.

Asynchronous execution is embedded by making each `poll` an explicit
state-transition function; a unit of work is modelled as a deterministic
poll sequence (a number of pending polls followed by an outcome).  Panics
are values of the poll-result type (`PollRes.panicked`), mirroring how the
code captures unwinds with `catch_unwind` and re-raises them with
`resume_unwind`.
-/

/-- Payload carried by a panic that a poll raises or re-raises.
`user` is a captured unwind payload from the spawned unit of work
(`Box<dyn Any>` in the source); `canceled` is the boxed
`futures_channel::oneshot::Canceled` error; `fatal` is the message of an
explicit `panic!` / `expect` / `unreachable!` in the handle code. -/
inductive PanicInfo where
  | user (payload : String)
  | canceled
  | fatal (msg : String)
deriving Repr, DecidableEq

/-- Result of one poll of a future: pending, ready with a value, or the
poll panicked (unwound) with a payload. -/
inductive PollRes (α : Type) where
  | pending
  | ready (a : α)
  | panicked (p : PanicInfo)
deriving Repr, DecidableEq

/-- State of a `futures_channel::oneshot` channel, as observable through
the receiver.  `sent` holds a message the receiver has not yet taken;
`taken` means the receiver already consumed the message (a further
receive reports `Canceled`); `senderDropped` means the sender was dropped
without ever sending. -/
inductive ChannelState (α : Type) where
  | empty
  | sent (msg : α)
  | taken
  | senderDropped
deriving Repr, DecidableEq

/-- A unit of work, embedded as a deterministic poll sequence: `steps`
polls return pending, the next poll completes with `result`.  The
`CatchUnwind<AssertUnwindSafe<Fut>>` wrapper in `remote_handle.rs`
turns a panic of the inner future into the value `Except.error`, so the
wrapped future itself never unwinds. -/
structure SimpleFuture (α : Type) where
  steps : Nat
  result : Except PanicInfo α
deriving Repr

/-- Joint state of one Cancellable Remote Pair: the wrapped unit of work
with its poll progress, the one-shot channel, whether the receiver has
been dropped (this is what `Sender::poll_canceled` reports to the
remote), the shared `keep_running` flag, and whether the remote future
has resolved. -/
structure RemoteState (α : Type) where
  fut : SimpleFuture α
  polled : Nat
  chan : ChannelState (Except PanicInfo α)
  rxDropped : Bool
  keepRunning : Bool
  remoteDone : Bool
deriving Repr

/-- Model of `remote_handle` (remote_handle.rs line 115): creates the one-shot
channel and the `keep_running` flag, initially `false`, and wraps the
future in `CatchUnwind`. -/
def remote_handle {α : Type} (fut : SimpleFuture α) : RemoteState α :=
  { fut := fut
    polled := 0
    chan := ChannelState.empty
    rxDropped := false
    keepRunning := false
    remoteDone := false }

/-- The part of `Remote::poll` after the cancellation check
(remote_handle.rs lines 105-110): poll the `CatchUnwind`-wrapped inner
future; on completion send the output through the one-shot sender,
consuming it (if the receiver has gone away the send error is ignored
and the message is lost), and resolve. -/
def Remote.pollInner {α : Type} (s : RemoteState α) : RemoteState α × PollRes Unit :=
  if s.polled < s.fut.steps then
    ({ s with polled := s.polled + 1 }, PollRes.pending)
  else
    ({ s with
        polled := s.polled + 1
        chan := if s.rxDropped then ChannelState.senderDropped
                else ChannelState.sent s.fut.result
        remoteDone := true }, PollRes.ready ())

/-- Model of `Remote::poll` (remote_handle.rs lines 97-111): if `poll_canceled`
reports the receiver dropped and `keep_running` is still false, resolve
immediately without touching the inner future; otherwise poll the inner
future and send its output on completion. -/
def Remote.poll {α : Type} (s : RemoteState α) : RemoteState α × PollRes Unit :=
  if s.rxDropped && !s.keepRunning then
    ({ s with remoteDone := true }, PollRes.ready ())
  else
    Remote.pollInner s

/-- Model of `RemoteHandle::poll` (remote_handle.rs lines 57-65): `Ok(Ok(v))`
resolves to the value, `Ok(Err(e))` re-raises the captured panic with
`resume_unwind`, `Err(Canceled)` (sender dropped, or message already
taken) re-raises `Canceled` as a panic. -/
def RemoteHandle.poll {α : Type} (s : RemoteState α) : RemoteState α × PollRes α :=
  match s.chan with
  | ChannelState.empty => (s, PollRes.pending)
  | ChannelState.sent (Except.ok v) =>
      ({ s with chan := ChannelState.taken }, PollRes.ready v)
  | ChannelState.sent (Except.error e) =>
      ({ s with chan := ChannelState.taken }, PollRes.panicked e)
  | ChannelState.taken => (s, PollRes.panicked PanicInfo.canceled)
  | ChannelState.senderDropped => (s, PollRes.panicked PanicInfo.canceled)

/-- Dropping the `RemoteHandle`: the receiver is dropped, which is what
the remote observes through `poll_canceled`. -/
def RemoteHandle.drop {α : Type} (s : RemoteState α) : RemoteState α :=
  { s with rxDropped := true }

/-- Model of `RemoteHandle::forget` (remote_handle.rs lines 49-51): store `true`
into `keep_running`; `forget` consumes the handle, so the receiver is
dropped afterwards. -/
def RemoteHandle.forget {α : Type} (s : RemoteState α) : RemoteState α :=
  RemoteHandle.drop { s with keepRunning := true }

/-- Dropping the `Remote` future itself (e.g. the executor discards it
before completion): if the sender was not yet consumed it is dropped
without sending. -/
def Remote.drop {α : Type} (s : RemoteState α) : RemoteState α :=
  match s.chan with
  | ChannelState.empty => { s with chan := ChannelState.senderDropped }
  | _ => s

/-- Poll the remote future `n` times in sequence. -/
def driveRemote {α : Type} (s : RemoteState α) : Nat → RemoteState α
  | 0 => s
  | n + 1 => (Remote.poll (driveRemote s n)).1

/-- Model of `SpawnExt::spawn_with_handle` (core/spawn.rs lines 253-261): build a
Cancellable Remote Pair around the future, hand the remote to the
backend and return the handle.  All provided backends accept the remote
(see the fire-and-forget models below), so the pair state is returned
directly. -/
def SpawnExt.spawn_with_handle {α : Type} (fut : SimpleFuture α) : RemoteState α :=
  remote_handle fut

/-! ## Native join handles

`src/src/core/join_handle.rs` wraps each backend's native handle or a
remote pair in the tagged union `InnerJh`.  The underlying native task,
as observable through a backend join handle, is either still running,
finished with a value, or reports a join error (the backend aborted the
task or was torn down). -/

/-- What a backend's native join handle reports when polled. -/
inductive NativeJoin (α : Type) where
  | running
  | finished (t : α)
  | joinError (e : String)
deriving Repr

/-- Model of `InnerJh` (core/join_handle.rs lines 77-120): tagged union over the
backend-native handle kinds plus the generic remote-pair kind.  The
`tokio` and `asyncStd` variants carry the `detached: AtomicBool` flag;
the `asyncGlobal` and `glommio` variants hold `Option<Task>`; the
`remoteHandle` variant holds `Option<RemoteHandle<T>>`, embedded here as
the joint pair state so the handle-side poll can be expressed. -/
inductive InnerJh (α : Type) where
  | tokio (handle : NativeJoin α) (detached : Bool)
  | asyncStd (handle : NativeJoin α) (detached : Bool)
  | asyncGlobal (task : Option (NativeJoin α))
  | glommio (task : Option (NativeJoin α))
  | remoteHandle (h : Option (RemoteState α))
deriving Repr

/-- Model of `JoinHandle::detach` (core/join_handle.rs lines 128-164).  For the
`Tokio` and `AsyncStd` variants it stores `true` into the `detached`
flag; for `AsyncGlobal` and `Glommio` it takes the task and calls the
backend's own `detach`; for `RemoteHandle` it takes the handle and calls
`forget` on it.  The second component is the remote-pair state after the
taken handle's `forget` ran (there is none for the other variants). -/
def JoinHandle.detach {α : Type} : InnerJh α → InnerJh α × Option (RemoteState α)
  | InnerJh.tokio h _ => (InnerJh.tokio h true, none)
  | InnerJh.asyncStd h _ => (InnerJh.asyncStd h true, none)
  | InnerJh.asyncGlobal _ => (InnerJh.asyncGlobal none, none)
  | InnerJh.glommio _ => (InnerJh.glommio none, none)
  | InnerJh.remoteHandle none => (InnerJh.remoteHandle none, none)
  | InnerJh.remoteHandle (some rh) =>
      (InnerJh.remoteHandle none, some (RemoteHandle.forget rh))

/-- Model of `Future for JoinHandle` (core/join_handle.rs lines 173-218).  The
`Tokio` variant turns a join error into a loud panic; the `AsyncStd`
variant treats `Err(Aborted)` as `unreachable!`; `RemoteHandle` polls
the inner handle, which must still be present (`expect("no polling
after detach")`). -/
def JoinHandle.poll {α : Type} : InnerJh α → InnerJh α × PollRes α
  | InnerJh.tokio NativeJoin.running d => (InnerJh.tokio NativeJoin.running d, PollRes.pending)
  | InnerJh.tokio (NativeJoin.finished t) d =>
      (InnerJh.tokio (NativeJoin.finished t) d, PollRes.ready t)
  | InnerJh.tokio (NativeJoin.joinError e) d =>
      (InnerJh.tokio (NativeJoin.joinError e) d,
       PollRes.panicked (PanicInfo.fatal
         ("Task has been canceled. Are you dropping the executor to early? Error: " ++ e)))
  | InnerJh.asyncStd NativeJoin.running d => (InnerJh.asyncStd NativeJoin.running d, PollRes.pending)
  | InnerJh.asyncStd (NativeJoin.finished t) d =>
      (InnerJh.asyncStd (NativeJoin.finished t) d, PollRes.ready t)
  | InnerJh.asyncStd (NativeJoin.joinError e) d =>
      (InnerJh.asyncStd (NativeJoin.joinError e) d,
       PollRes.panicked (PanicInfo.fatal "internal error: entered unreachable code"))
  | InnerJh.asyncGlobal (some NativeJoin.running) =>
      (InnerJh.asyncGlobal (some NativeJoin.running), PollRes.pending)
  | InnerJh.asyncGlobal (some (NativeJoin.finished t)) =>
      (InnerJh.asyncGlobal (some (NativeJoin.finished t)), PollRes.ready t)
  | InnerJh.asyncGlobal (some (NativeJoin.joinError e)) =>
      (InnerJh.asyncGlobal (some (NativeJoin.joinError e)),
       PollRes.panicked (PanicInfo.fatal e))
  | InnerJh.asyncGlobal none =>
      (InnerJh.asyncGlobal none, PollRes.panicked (PanicInfo.fatal "task.as_mut().unwrap()"))
  | InnerJh.glommio (some NativeJoin.running) =>
      (InnerJh.glommio (some NativeJoin.running), PollRes.pending)
  | InnerJh.glommio (some (NativeJoin.finished t)) =>
      (InnerJh.glommio (some (NativeJoin.finished t)), PollRes.ready t)
  | InnerJh.glommio (some (NativeJoin.joinError e)) =>
      (InnerJh.glommio (some (NativeJoin.joinError e)),
       PollRes.panicked (PanicInfo.fatal e))
  | InnerJh.glommio none =>
      (InnerJh.glommio none, PollRes.panicked (PanicInfo.fatal "Why would it ever happen?"))
  | InnerJh.remoteHandle none =>
      (InnerJh.remoteHandle none, PollRes.panicked (PanicInfo.fatal "no polling after detach"))
  | InnerJh.remoteHandle (some rh) =>
      let r := RemoteHandle.poll rh
      (InnerJh.remoteHandle (some r.1), r.2)

/-- Model of `Drop for JoinHandle` (core/join_handle.rs lines 227-251).  For the
`Tokio` and `AsyncStd` variants a backend abort is issued iff the
`detached` flag is still false; the other variants issue nothing.
Dropping the `RemoteHandle` variant drops the contained receiver as part
of dropping the struct.  Returns the remote-pair state after the drop
(when the variant holds one) and whether a native abort call was
issued. -/
def JoinHandle.drop {α : Type} : InnerJh α → Option (RemoteState α) × Bool
  | InnerJh.tokio _ d => (none, !d)
  | InnerJh.asyncStd _ d => (none, !d)
  | InnerJh.asyncGlobal _ => (none, false)
  | InnerJh.glommio _ => (none, false)
  | InnerJh.remoteHandle none => (none, false)
  | InnerJh.remoteHandle (some rh) => (some (RemoteHandle.drop rh), false)

/-- Spawn sites of the `Tokio` variant (src/src/tokio_ct.rs,
`SpawnHandle for TokioCt` and friends) create the handle with
`detached: AtomicBool::new(false)`. -/
def TokioCt.spawn_handle {α : Type} (handle : NativeJoin α) : InnerJh α :=
  InnerJh.tokio handle false

/-! ### `TokioJoinHandle` (src/src/runtime/tokio_jh.rs) -/

/-- Model of `TokioJoinHandle` holds `Option<tokio::task::JoinHandle<T>>`;
`None` after detach or after the value was yielded. -/
structure TokioJoinHandle (α : Type) where
  handle : Option (NativeJoin α)
deriving Repr

/-- Model of `Future for TokioJoinHandle` (tokio_jh.rs lines 21-40): on `Ok` the
inner handle is taken before returning the value; a join error is a
panic; polling with no inner handle is a panic. -/
def TokioJoinHandle.poll {α : Type} (s : TokioJoinHandle α) :
    TokioJoinHandle α × PollRes α :=
  match s.handle with
  | some NativeJoin.running => (s, PollRes.pending)
  | some (NativeJoin.finished t) => (⟨none⟩, PollRes.ready t)
  | some (NativeJoin.joinError e) =>
      (s, PollRes.panicked (PanicInfo.fatal ("Tokio runtime ended before joining: " ++ e)))
  | none => (s, PollRes.panicked (PanicInfo.fatal "Cannot poll after completion/cancellation"))

/-- Model of `TokioJoinHandle::detach` (tokio_jh.rs lines 42-46): drop the inner
handle without aborting. -/
def TokioJoinHandle.detach {α : Type} (_ : TokioJoinHandle α) : TokioJoinHandle α :=
  ⟨none⟩

/-- Model of `Drop for TokioJoinHandle` (tokio_jh.rs lines 47-53): `abort` is
called iff the inner handle is still present.  Returns whether the
backend abort call was issued. -/
def TokioJoinHandle.dropRun {α : Type} (s : TokioJoinHandle α) : Bool :=
  s.handle.isSome

/-! ### `AsyncStdJoinHandle` (src/src/runtime/async_std.rs) -/

/-- Model of `AsyncStdJoinHandle` holds `Option` of the async-std join handle for
the `Abortable`-wrapped future (output `Result<T, Aborted>`; a join
error here is the `Aborted` report) plus an `AbortHandle`. -/
structure AsyncStdJoinHandle (α : Type) where
  task : Option (NativeJoin α)
deriving Repr

/-- Model of `Future for AsyncStdJoinHandle` (async_std.rs lines 131-148):
polling a taken handle panics via `expect`; `Err(Aborted)` panics
"Task has been aborted". -/
def AsyncStdJoinHandle.poll {α : Type} (s : AsyncStdJoinHandle α) :
    AsyncStdJoinHandle α × PollRes α :=
  match s.task with
  | none => (s, PollRes.panicked (PanicInfo.fatal "Cannot poll a detached JoinHandle twice"))
  | some NativeJoin.running => (s, PollRes.pending)
  | some (NativeJoin.finished t) => (s, PollRes.ready t)
  | some (NativeJoin.joinError _) =>
      (s, PollRes.panicked (PanicInfo.fatal "Task has been aborted"))

/-- Model of `AsyncStdJoinHandle::detach` (async_std.rs lines 149-156): take the
task out. -/
def AsyncStdJoinHandle.detach {α : Type} (_ : AsyncStdJoinHandle α) : AsyncStdJoinHandle α :=
  ⟨none⟩

/-- Model of `Drop for AsyncStdJoinHandle` (async_std.rs lines 157-163):
`a_handle.abort()` is called iff the task is still present. -/
def AsyncStdJoinHandle.dropRun {α : Type} (s : AsyncStdJoinHandle α) : Bool :=
  s.task.isSome

/-! ## Fire-and-forget spawn implementations

Each backend adapter implements `Spawn::spawn_obj` /
`LocalSpawn::spawn_local_obj` and/or the static `SpawnStatic::spawn` /
`LocalSpawnStatic::spawn_local`.  Every one of them hands the future to
the backend (modelled as enqueueing an opaque task id into the backend's
world) and returns `Ok(())`.  `SpawnError` is never constructed. -/

/-- An opaque spawned unit of work. -/
abbrev TaskId := Nat

/-- The backend's world: the tasks handed to it so far. -/
structure ExecWorld where
  tasks : List TaskId
deriving Repr, DecidableEq

/-- Model of `Result<(), SpawnError>` as returned by the spawn entry points. -/
inductive SpawnOutcome where
  | ok
  | rejected
deriving Repr, DecidableEq

/-- Model of `Spawn for TokioTp` (runtime/tokio_tp.rs lines 150-158). -/
def TokioTp.spawn_obj (w : ExecWorld) (fut : TaskId) : ExecWorld × SpawnOutcome :=
  ({ tasks := w.tasks ++ [fut] }, SpawnOutcome.ok)

/-- Model of `SpawnStatic for TokioTp` (runtime/tokio_tp.rs lines 160-169). -/
def TokioTp.spawn (w : ExecWorld) (fut : TaskId) : ExecWorld × SpawnOutcome :=
  ({ tasks := w.tasks ++ [fut] }, SpawnOutcome.ok)

/-- Model of `LocalSpawnStatic for TokioTp` (runtime/tokio_tp.rs lines 180-189). -/
def TokioTp.spawn_local (w : ExecWorld) (fut : TaskId) : ExecWorld × SpawnOutcome :=
  ({ tasks := w.tasks ++ [fut] }, SpawnOutcome.ok)

/-- Model of `LocalSpawn for TokioCt` (runtime/tokio_ct.rs lines 132-140). -/
def TokioCt.spawn_local_obj (w : ExecWorld) (fut : TaskId) : ExecWorld × SpawnOutcome :=
  ({ tasks := w.tasks ++ [fut] }, SpawnOutcome.ok)

/-- Model of `Spawn for TokioCt` (runtime/tokio_ct.rs lines 111-119): spawns on
the local set, like `spawn_local_obj`. -/
def TokioCt.spawn_obj (w : ExecWorld) (fut : TaskId) : ExecWorld × SpawnOutcome :=
  TokioCt.spawn_local_obj w fut

/-- Model of `SpawnStatic for TokioCt` (runtime/tokio_ct.rs lines 121-130). -/
def TokioCt.spawn (w : ExecWorld) (fut : TaskId) : ExecWorld × SpawnOutcome :=
  ({ tasks := w.tasks ++ [fut] }, SpawnOutcome.ok)

/-- Model of `LocalSpawnStatic for TokioCt` (runtime/tokio_ct.rs lines 142-151). -/
def TokioCt.spawn_local (w : ExecWorld) (fut : TaskId) : ExecWorld × SpawnOutcome :=
  ({ tasks := w.tasks ++ [fut] }, SpawnOutcome.ok)

/-- Model of `SpawnStatic for Tokio` (runtime/tokio_static.rs lines 11-20). -/
def Tokio.spawn (w : ExecWorld) (fut : TaskId) : ExecWorld × SpawnOutcome :=
  ({ tasks := w.tasks ++ [fut] }, SpawnOutcome.ok)

/-- Model of `LocalSpawnStatic for Tokio` (runtime/tokio_static.rs lines 22-31). -/
def Tokio.spawn_local (w : ExecWorld) (fut : TaskId) : ExecWorld × SpawnOutcome :=
  ({ tasks := w.tasks ++ [fut] }, SpawnOutcome.ok)

/-- Model of `Spawn for AsyncStd` (runtime/async_std.rs lines 52-60; the wasm32
variant at lines 42-50 is identical up to the backend entry point). -/
def AsyncStd.spawn_obj (w : ExecWorld) (fut : TaskId) : ExecWorld × SpawnOutcome :=
  ({ tasks := w.tasks ++ [fut] }, SpawnOutcome.ok)

/-- Model of `LocalSpawn for AsyncStd` (runtime/async_std.rs lines 99-107). -/
def AsyncStd.spawn_local_obj (w : ExecWorld) (fut : TaskId) : ExecWorld × SpawnOutcome :=
  ({ tasks := w.tasks ++ [fut] }, SpawnOutcome.ok)

/-- Model of `Spawn for AsyncGlobal` (runtime/async_global.rs lines 52-60). -/
def AsyncGlobal.spawn_obj (w : ExecWorld) (fut : TaskId) : ExecWorld × SpawnOutcome :=
  ({ tasks := w.tasks ++ [fut] }, SpawnOutcome.ok)

/-- Model of `LocalSpawn for AsyncGlobal` (runtime/async_global.rs lines 93-99). -/
def AsyncGlobal.spawn_local_obj (w : ExecWorld) (fut : TaskId) : ExecWorld × SpawnOutcome :=
  ({ tasks := w.tasks ++ [fut] }, SpawnOutcome.ok)

/-- Model of `LocalSpawn for GlommioCt` (runtime/glommio_ct.rs lines 43-48). -/
def GlommioCt.spawn_local_obj (w : ExecWorld) (fut : TaskId) : ExecWorld × SpawnOutcome :=
  ({ tasks := w.tasks ++ [fut] }, SpawnOutcome.ok)

/-- Model of `Spawn for GlommioCt` (runtime/glommio_ct.rs lines 78-82):
delegates to `spawn_local_obj`. -/
def GlommioCt.spawn_obj (w : ExecWorld) (fut : TaskId) : ExecWorld × SpawnOutcome :=
  GlommioCt.spawn_local_obj w fut

/-- Model of `SpawnStatic for GlommioCt` (runtime/glommio_ct.rs lines 84-93). -/
def GlommioCt.spawn (w : ExecWorld) (fut : TaskId) : ExecWorld × SpawnOutcome :=
  ({ tasks := w.tasks ++ [fut] }, SpawnOutcome.ok)

/-- Model of `LocalSpawnStatic for GlommioCt` (runtime/glommio_ct.rs lines 49-58). -/
def GlommioCt.spawn_local (w : ExecWorld) (fut : TaskId) : ExecWorld × SpawnOutcome :=
  ({ tasks := w.tasks ++ [fut] }, SpawnOutcome.ok)

/-- Model of `SpawnStatic for Glommio` (runtime/glommio_static.rs lines 41-50). -/
def Glommio.spawn (w : ExecWorld) (fut : TaskId) : ExecWorld × SpawnOutcome :=
  ({ tasks := w.tasks ++ [fut] }, SpawnOutcome.ok)

/-- Model of `LocalSpawnStatic for Glommio` (runtime/glommio_static.rs lines 18-27). -/
def Glommio.spawn_local (w : ExecWorld) (fut : TaskId) : ExecWorld × SpawnOutcome :=
  ({ tasks := w.tasks ++ [fut] }, SpawnOutcome.ok)

/-- Model of `Spawn for Bindgen` (runtime/bindgen.rs lines 27-33). -/
def Bindgen.spawn_obj (w : ExecWorld) (fut : TaskId) : ExecWorld × SpawnOutcome :=
  ({ tasks := w.tasks ++ [fut] }, SpawnOutcome.ok)

/-- Model of `LocalSpawn for Bindgen` (runtime/bindgen.rs lines 35-41). -/
def Bindgen.spawn_local_obj (w : ExecWorld) (fut : TaskId) : ExecWorld × SpawnOutcome :=
  ({ tasks := w.tasks ++ [fut] }, SpawnOutcome.ok)

/-- All the fire-and-forget spawn entry points provided by the adapters,
as one list of uniform functions. -/
def providedSpawnImpls : List (ExecWorld → TaskId → ExecWorld × SpawnOutcome) :=
  [ TokioTp.spawn_obj, TokioTp.spawn, TokioTp.spawn_local
  , TokioCt.spawn_obj, TokioCt.spawn_local_obj, TokioCt.spawn, TokioCt.spawn_local
  , Tokio.spawn, Tokio.spawn_local
  , AsyncStd.spawn_obj, AsyncStd.spawn_local_obj
  , AsyncGlobal.spawn_obj, AsyncGlobal.spawn_local_obj
  , GlommioCt.spawn_obj, GlommioCt.spawn_local_obj, GlommioCt.spawn, GlommioCt.spawn_local
  , Glommio.spawn, Glommio.spawn_local
  , Bindgen.spawn_obj, Bindgen.spawn_local_obj ]

/-! ## SpawnBlocking implementations

Where a blocking closure is dispatched and how its handle is built, per
implementation.  The glommio implementations wrap the closure as a
trivial future paired through `remote_handle` and run the remote on a
fresh `std::thread::spawn` thread; the tokio implementations delegate to
`tokio::task::spawn_blocking`, which queues onto tokio's shared blocking
thread pool and returns tokio's native join handle. -/

/-- Dispatch target of a `spawn_blocking` implementation. -/
inductive BlockingDispatch where
  | dedicatedThread
  | tokioBlockingPool
deriving Repr, DecidableEq

/-- How the returned handle is backed. -/
inductive BlockingWrap where
  | remotePair
  | nativeJoinHandle
deriving Repr, DecidableEq

/-- Descriptor of one `spawn_blocking` implementation. -/
structure SpawnBlockingImpl where
  name : String
  dispatch : BlockingDispatch
  wrap : BlockingWrap
deriving Repr, DecidableEq

/-- Model of `SpawnBlockingStatic for GlommioCt` (runtime/glommio_ct.rs lines
118-126): `remote_handle` pair, remote run via `std::thread::spawn`. -/
def GlommioCt.spawn_blocking_impl : SpawnBlockingImpl :=
  { name := "GlommioCt", dispatch := BlockingDispatch.dedicatedThread
    wrap := BlockingWrap.remotePair }

/-- Model of `SpawnBlockingStatic for Glommio` (runtime/glommio_static.rs lines
69-81): `remote_handle` pair, remote run via `std::thread::spawn`. -/
def Glommio.spawn_blocking_impl : SpawnBlockingImpl :=
  { name := "Glommio", dispatch := BlockingDispatch.dedicatedThread
    wrap := BlockingWrap.remotePair }

/-- Model of `SpawnBlockingStatic for Tokio` (runtime/tokio_static.rs lines
59-66): `tokio::task::spawn_blocking`, native `TokioJoinHandle`. -/
def Tokio.spawn_blocking_impl : SpawnBlockingImpl :=
  { name := "Tokio", dispatch := BlockingDispatch.tokioBlockingPool
    wrap := BlockingWrap.nativeJoinHandle }

/-- Model of `SpawnBlocking for TokioCt` (runtime/tokio_ct.rs lines 196-204):
`self.exec.spawn_blocking(func)`, native `TokioJoinHandle`. -/
def TokioCt.spawn_blocking_impl : SpawnBlockingImpl :=
  { name := "TokioCt", dispatch := BlockingDispatch.tokioBlockingPool
    wrap := BlockingWrap.nativeJoinHandle }

/-- All `spawn_blocking` implementations provided by the repository. -/
def spawnBlockingImpls : List SpawnBlockingImpl :=
  [ GlommioCt.spawn_blocking_impl, Glommio.spawn_blocking_impl
  , Tokio.spawn_blocking_impl, TokioCt.spawn_blocking_impl ]

/-- The glommio `spawn_blocking` value flow (runtime/glommio_ct.rs line
122): the closure is wrapped as the trivial future `async { func() }`,
which resolves on its first poll to the closure's result, and paired
through `remote_handle`. -/
def GlommioCt.spawn_blocking {α : Type} (func : Unit → α) : RemoteState α :=
  remote_handle { steps := 0, result := Except.ok (func ()) }

/-! ## Helper lemmas about driving the remote future -/

theorem Remote.poll_not_cancelled {α : Type} (s : RemoteState α)
    (h : s.rxDropped = false ∨ s.keepRunning = true) :
    Remote.poll s = Remote.pollInner s := by
  unfold Remote.poll
  rcases h with h | h <;> simp [h]

theorem Remote.poll_cancelled {α : Type} (s : RemoteState α)
    (h1 : s.rxDropped = true) (h2 : s.keepRunning = false) :
    Remote.poll s = ({ s with remoteDone := true }, PollRes.ready ()) := by
  unfold Remote.poll
  simp [h1, h2]

theorem driveRemote_pending {α : Type} (s : RemoteState α)
    (h : s.rxDropped = false ∨ s.keepRunning = true) :
    ∀ n : Nat, s.polled + n ≤ s.fut.steps →
      driveRemote s n = { s with polled := s.polled + n } := by
  intro n
  induction n with
  | zero => intro _; simp [driveRemote]
  | succ n ih =>
      intro hle
      have hle' : s.polled + n ≤ s.fut.steps := by omega
      have hlt : s.polled + n < s.fut.steps := by omega
      show (Remote.poll (driveRemote s n)).1 = _
      rw [ih hle']
      rcases h with h | h <;>
        simp [Remote.poll, Remote.pollInner, h, hlt] <;> omega

theorem driveRemote_completes {α : Type} (s : RemoteState α) (n : Nat)
    (h : s.rxDropped = false ∨ s.keepRunning = true) (hp : s.polled = 0)
    (hn : n = s.fut.steps + 1) :
    driveRemote s n =
      { s with
          polled := s.fut.steps + 1
          chan := if s.rxDropped then ChannelState.senderDropped
                  else ChannelState.sent s.fut.result
          remoteDone := true } := by
  subst hn
  have hstep := driveRemote_pending s h s.fut.steps (by omega)
  show (Remote.poll (driveRemote s s.fut.steps)).1 = _
  rw [hstep]
  rcases h with h | h <;>
    simp [Remote.poll, Remote.pollInner, h, hp]

theorem driveRemote_cancelled {α : Type} (s : RemoteState α)
    (h1 : s.rxDropped = true) (h2 : s.keepRunning = false) :
    ∀ n : Nat, n ≠ 0 → driveRemote s n = { s with remoteDone := true } := by
  intro n
  induction n with
  | zero => intro hn; exact absurd rfl hn
  | succ n ih =>
      intro _
      show (Remote.poll (driveRemote s n)).1 = _
      by_cases hn : n = 0
      · subst hn
        rw [show driveRemote s 0 = s from rfl, Remote.poll_cancelled s h1 h2]
      · rw [ih hn]
        simp [Remote.poll, h1, h2]

/-! ## Claim theorems -/

/-- Claim C1: Round-trip.  A unit of work spawned through
`spawn_with_handle` (a Cancellable Remote Pair) that resolves to a value
`v` without panicking and is never cancelled: driving the remote future
to completion and then polling the returned handle yields exactly `v`.
The statement is generic in the output type, so it covers unit, integer
and owned-string outputs alike. -/
theorem spawn_with_handle_roundtrip {α : Type} (steps : Nat) (v : α) :
    (RemoteHandle.poll (driveRemote
        (SpawnExt.spawn_with_handle { steps := steps, result := Except.ok v })
        (steps + 1))).2 = PollRes.ready v := by
  have hc := driveRemote_completes
      (remote_handle ({ steps := steps, result := Except.ok v } : SimpleFuture α))
      (steps + 1) (Or.inl rfl) rfl rfl
  show (RemoteHandle.poll (driveRemote
      (remote_handle ({ steps := steps, result := Except.ok v } : SimpleFuture α))
      (steps + 1))).2 = PollRes.ready v
  rw [hc]
  simp [remote_handle, RemoteHandle.poll]

/-- Claim C2: a panicking unit of work has its captured fault re-raised
when the handle is polled, not at pairing/spawn time and not on the
executor side: the remote's own polls resolve cleanly (the unwind is
captured as a value), the handle is still pending before completion, and
after completion polling the handle re-raises the captured payload.  If
the sender is dropped without ever sending, polling the handle panics
with the `Canceled` payload, the same re-raise mechanism. -/
theorem handle_reraises_panic {α : Type} (steps : Nat) (p : String) :
    (Remote.poll (driveRemote
        (remote_handle ({ steps := steps, result := Except.error (PanicInfo.user p) }
          : SimpleFuture α)) steps)).2 = PollRes.ready ()
    ∧ (RemoteHandle.poll
        (remote_handle ({ steps := steps, result := Except.error (PanicInfo.user p) }
          : SimpleFuture α))).2 = PollRes.pending
    ∧ (RemoteHandle.poll (driveRemote
        (remote_handle ({ steps := steps, result := Except.error (PanicInfo.user p) }
          : SimpleFuture α)) (steps + 1))).2
        = PollRes.panicked (PanicInfo.user p)
    ∧ (∀ s : RemoteState α,
        (RemoteHandle.poll (Remote.drop { s with chan := ChannelState.empty })).2
          = PollRes.panicked PanicInfo.canceled) := by
  refine ⟨?_, ?_, ?_, ?_⟩
  · have hstep := driveRemote_pending
        (remote_handle ({ steps := steps, result := Except.error (PanicInfo.user p) }
          : SimpleFuture α)) (Or.inl rfl) steps (by simp [remote_handle])
    rw [hstep]
    simp [remote_handle, Remote.poll, Remote.pollInner]
  · simp [remote_handle, RemoteHandle.poll]
  · have hc := driveRemote_completes
        (remote_handle ({ steps := steps, result := Except.error (PanicInfo.user p) }
          : SimpleFuture α)) (steps + 1) (Or.inl rfl) rfl rfl
    rw [hc]
    simp [remote_handle, RemoteHandle.poll]
  · intro s
    simp [Remote.drop, RemoteHandle.poll]

/-- Claim C3: each poll of the remote first checks cancellation-intent:
with the receiver dropped and the keep-running flag (created false at
pairing time) still false it resolves immediately, leaving the inner
unit of work untouched; with the flag true the dropped receiver is
ignored and the remote proceeds to poll the inner work, running it to
completion.  Dropping the receiver on its own changes nothing in the
remote's progress, so cancellation only takes effect at the next poll. -/
theorem remote_cancellation_semantics {α : Type} :
    (∀ fut : SimpleFuture α, (remote_handle fut).keepRunning = false)
    ∧ (∀ s : RemoteState α,
        Remote.poll { s with rxDropped := true, keepRunning := false } =
          ({ s with rxDropped := true, keepRunning := false, remoteDone := true },
           PollRes.ready ()))
    ∧ (∀ s : RemoteState α,
        Remote.poll { s with rxDropped := true, keepRunning := true } =
          Remote.pollInner { s with rxDropped := true, keepRunning := true })
    ∧ (∀ fut : SimpleFuture α,
        (driveRemote { remote_handle fut with rxDropped := true, keepRunning := true }
            (fut.steps + 1)).polled = fut.steps + 1)
    ∧ (∀ s : RemoteState α,
        (RemoteHandle.drop s).polled = s.polled
          ∧ (RemoteHandle.drop s).chan = s.chan
          ∧ (RemoteHandle.drop s).remoteDone = s.remoteDone) := by
  refine ⟨fun _ => rfl, ?_, ?_, ?_, fun s => ⟨rfl, rfl, rfl⟩⟩
  · intro s
    simp [Remote.poll]
  · intro s
    simp [Remote.poll]
  · intro fut
    have hc := driveRemote_completes
        ({ remote_handle fut with rxDropped := true, keepRunning := true })
        (fut.steps + 1) (Or.inr rfl) rfl rfl
    rw [hc]
    rfl

/-- Claim C4: detaching never cancels the work.  For the Remote Pair,
`forget` sets the keep-running flag to true (and then drops the
receiver), after which driving the remote still polls the inner work to
completion.  For the native variants, `detach` sets the detached flag
(or takes the inner handle), so the drop logic issues no backend abort
call. -/
theorem detach_keeps_work_running {α : Type} :
    (∀ s : RemoteState α, (RemoteHandle.forget s).keepRunning = true)
    ∧ (∀ fut : SimpleFuture α,
        (driveRemote (RemoteHandle.forget (remote_handle fut)) (fut.steps + 1)).polled
            = fut.steps + 1
          ∧ (driveRemote (RemoteHandle.forget (remote_handle fut))
              (fut.steps + 1)).remoteDone = true)
    ∧ (∀ (h : NativeJoin α) (d : Bool),
        JoinHandle.detach (InnerJh.tokio h d) = (InnerJh.tokio h true, none))
    ∧ (∀ h : NativeJoin α,
        JoinHandle.drop (JoinHandle.detach (InnerJh.tokio h false)).1 = (none, false))
    ∧ (∀ h : NativeJoin α,
        JoinHandle.drop (JoinHandle.detach (InnerJh.asyncStd h false)).1 = (none, false))
    ∧ (∀ s : TokioJoinHandle α,
        TokioJoinHandle.dropRun (TokioJoinHandle.detach s) = false)
    ∧ (∀ s : AsyncStdJoinHandle α,
        AsyncStdJoinHandle.dropRun (AsyncStdJoinHandle.detach s) = false)
    ∧ (∀ rh : RemoteState α,
        JoinHandle.detach (InnerJh.remoteHandle (some rh))
          = (InnerJh.remoteHandle none, some (RemoteHandle.forget rh))) := by
  refine ⟨fun _ => rfl, ?_, fun _ _ => rfl, fun _ => rfl, fun _ => rfl,
    fun _ => rfl, fun _ => rfl, fun _ => rfl⟩
  intro fut
  have hc := driveRemote_completes (RemoteHandle.forget (remote_handle fut))
      (fut.steps + 1) (Or.inr rfl) rfl rfl
  rw [hc]
  exact ⟨rfl, rfl⟩

/-- Claim C5: dropping a handle that is still running (not detached, not
completed) cancels best-effort.  Native variants issue the backend abort
call in drop; the remote-pair variant merely drops the receiver, which
the remote observes at its next poll, resolving without ever advancing
the inner work again: the work's result is never produced. -/
theorem drop_while_running_cancels {α : Type} :
    (∀ h : NativeJoin α, JoinHandle.drop (InnerJh.tokio h false) = (none, true))
    ∧ (∀ h : NativeJoin α, JoinHandle.drop (InnerJh.asyncStd h false) = (none, true))
    ∧ (∀ j : NativeJoin α, TokioJoinHandle.dropRun ⟨some j⟩ = true)
    ∧ (∀ j : NativeJoin α, AsyncStdJoinHandle.dropRun ⟨some j⟩ = true)
    ∧ (∀ rh : RemoteState α,
        JoinHandle.drop (InnerJh.remoteHandle (some rh))
          = (some (RemoteHandle.drop rh), false))
    ∧ (∀ s : RemoteState α,
        Remote.poll (RemoteHandle.drop { s with keepRunning := false })
          = ({ s with keepRunning := false, rxDropped := true, remoteDone := true },
             PollRes.ready ()))
    ∧ (∀ (s : RemoteState α) (n : Nat),
        (driveRemote (RemoteHandle.drop { s with keepRunning := false }) n).polled
            = s.polled
          ∧ (driveRemote (RemoteHandle.drop { s with keepRunning := false }) n).chan
            = s.chan) := by
  refine ⟨fun _ => rfl, fun _ => rfl, fun _ => rfl, fun _ => rfl, fun _ => rfl, ?_, ?_⟩
  · intro s
    simp [RemoteHandle.drop, Remote.poll]
  · intro s n
    by_cases hn : n = 0
    · subst hn
      exact ⟨rfl, rfl⟩
    · have hc := driveRemote_cancelled
          (RemoteHandle.drop { s with keepRunning := false }) rfl rfl n hn
      rw [hc]
      exact ⟨rfl, rfl⟩

/-- Claim C6: when a native join handle reports the task was aborted or
cancelled by the backend, polling the wrapping handle panics at the
joining side — it does not return a value, pending, or a recoverable
error.  Covers the `InnerJh::Tokio` arm of `Future for JoinHandle`, the
`TokioJoinHandle` wrapper and the `AsyncStdJoinHandle` wrapper. -/
theorem native_abort_panics_on_join {α : Type} :
    (∀ (e : String) (d : Bool),
      (JoinHandle.poll (InnerJh.tokio (NativeJoin.joinError e) d : InnerJh α)).2
        = PollRes.panicked (PanicInfo.fatal
            ("Task has been canceled. Are you dropping the executor to early? Error: " ++ e)))
    ∧ (∀ e : String,
      (TokioJoinHandle.poll (⟨some (NativeJoin.joinError e)⟩ : TokioJoinHandle α)).2
        = PollRes.panicked (PanicInfo.fatal ("Tokio runtime ended before joining: " ++ e)))
    ∧ (∀ e : String,
      (AsyncStdJoinHandle.poll (⟨some (NativeJoin.joinError e)⟩ : AsyncStdJoinHandle α)).2
        = PollRes.panicked (PanicInfo.fatal "Task has been aborted")) :=
  ⟨fun _ _ => rfl, fun _ => rfl, fun _ => rfl⟩

/-- Claim C7: polling a handle after it has been detached, or after it
has already yielded its result, is fatal: the poll panics instead of
returning a value or pending.  `TokioJoinHandle` clears its inner handle
both on detach and on yielding the value, after which any poll panics;
the detached `AsyncStdJoinHandle` and the detached `InnerJh::RemoteHandle`
variant panic likewise; a remote-pair handle polled again after yielding
its value re-raises `Canceled`. -/
theorem poll_after_detach_or_completion_panics {α : Type} :
    (∀ s : TokioJoinHandle α,
      (TokioJoinHandle.poll (TokioJoinHandle.detach s)).2
        = PollRes.panicked (PanicInfo.fatal "Cannot poll after completion/cancellation"))
    ∧ (∀ t : α,
      TokioJoinHandle.poll ⟨some (NativeJoin.finished t)⟩
        = (⟨none⟩, PollRes.ready t))
    ∧ (∀ t : α,
      (TokioJoinHandle.poll
          (TokioJoinHandle.poll (⟨some (NativeJoin.finished t)⟩ : TokioJoinHandle α)).1).2
        = PollRes.panicked (PanicInfo.fatal "Cannot poll after completion/cancellation"))
    ∧ (∀ s : AsyncStdJoinHandle α,
      (AsyncStdJoinHandle.poll (AsyncStdJoinHandle.detach s)).2
        = PollRes.panicked (PanicInfo.fatal "Cannot poll a detached JoinHandle twice"))
    ∧ (∀ rh : RemoteState α,
      (JoinHandle.poll (JoinHandle.detach (InnerJh.remoteHandle (some rh))).1).2
        = PollRes.panicked (PanicInfo.fatal "no polling after detach"))
    ∧ (∀ (s : RemoteState α) (v : α),
      (RemoteHandle.poll
          (RemoteHandle.poll { s with chan := ChannelState.sent (Except.ok v) }).1).2
        = PollRes.panicked PanicInfo.canceled) :=
  ⟨fun _ => rfl, fun _ => rfl, fun _ => rfl, fun _ => rfl, fun _ => rfl, fun _ _ => rfl⟩

/-- Claim C8 counterexample: the claim says every `spawn_blocking`
implementation pairs the closure with a Cancellable Remote Pair and
dispatches it to a new dedicated thread; the `SpawnBlockingStatic for
Tokio` implementation (runtime/tokio_static.rs lines 59-66) instead
delegates to tokio's shared blocking pool and returns tokio's native
join handle. -/
theorem spawn_blocking_not_always_dedicated_thread :
    Tokio.spawn_blocking_impl ∈ spawnBlockingImpls
    ∧ ¬ (Tokio.spawn_blocking_impl.dispatch = BlockingDispatch.dedicatedThread
         ∧ Tokio.spawn_blocking_impl.wrap = BlockingWrap.remotePair) := by
  decide

/-- Claim C8 (amended): the glommio `spawn_blocking` implementations
wrap the closure as a trivial future paired through a Cancellable Remote
Pair and dispatch the remote to a new dedicated thread per call (one
remote poll completes the work and the handle yields the closure's
result); the tokio implementations instead delegate to
`tokio::task::spawn_blocking`, which runs the closure on tokio's shared
blocking thread pool and returns tokio's native join handle. -/
theorem spawn_blocking_per_backend {α : Type} :
    (GlommioCt.spawn_blocking_impl.dispatch = BlockingDispatch.dedicatedThread
      ∧ GlommioCt.spawn_blocking_impl.wrap = BlockingWrap.remotePair)
    ∧ (Glommio.spawn_blocking_impl.dispatch = BlockingDispatch.dedicatedThread
      ∧ Glommio.spawn_blocking_impl.wrap = BlockingWrap.remotePair)
    ∧ (Tokio.spawn_blocking_impl.dispatch = BlockingDispatch.tokioBlockingPool
      ∧ Tokio.spawn_blocking_impl.wrap = BlockingWrap.nativeJoinHandle)
    ∧ (TokioCt.spawn_blocking_impl.dispatch = BlockingDispatch.tokioBlockingPool
      ∧ TokioCt.spawn_blocking_impl.wrap = BlockingWrap.nativeJoinHandle)
    ∧ (∀ func : Unit → α,
      (RemoteHandle.poll (driveRemote (GlommioCt.spawn_blocking func) 1)).2
        = PollRes.ready (func ())) :=
  ⟨⟨rfl, rfl⟩, ⟨rfl, rfl⟩, ⟨rfl, rfl⟩, ⟨rfl, rfl⟩, fun _ => rfl⟩

/-- Claim C9: the detached flag of the native variants and the
keep-running flag of a Cancellable Remote Pair are created false and are
monotonic: every operation either leaves them unchanged (poll, drop) or
sets them to true (detach, forget); none ever resets a true flag. -/
theorem flags_initial_false_and_monotonic {α : Type} :
    (∀ fut : SimpleFuture α, (remote_handle fut).keepRunning = false)
    ∧ (∀ s : RemoteState α, (Remote.poll s).1.keepRunning = s.keepRunning)
    ∧ (∀ s : RemoteState α, (RemoteHandle.poll s).1.keepRunning = s.keepRunning)
    ∧ (∀ s : RemoteState α, (RemoteHandle.drop s).keepRunning = s.keepRunning)
    ∧ (∀ s : RemoteState α, (Remote.drop s).keepRunning = s.keepRunning)
    ∧ (∀ s : RemoteState α, (RemoteHandle.forget s).keepRunning = true)
    ∧ (∀ h : NativeJoin α, TokioCt.spawn_handle h = InnerJh.tokio h false)
    ∧ (∀ (h : NativeJoin α) (d : Bool),
        (JoinHandle.poll (InnerJh.tokio h d)).1 = InnerJh.tokio h d)
    ∧ (∀ (h : NativeJoin α) (d : Bool),
        (JoinHandle.detach (InnerJh.tokio h d)).1 = InnerJh.tokio h true)
    ∧ (∀ (h : NativeJoin α) (d : Bool),
        (JoinHandle.detach (InnerJh.asyncStd h d)).1 = InnerJh.asyncStd h true) := by
  refine ⟨fun _ => rfl, ?_, ?_, fun _ => rfl, ?_, fun _ => rfl, fun _ => rfl,
    ?_, fun _ _ => rfl, fun _ _ => rfl⟩
  · intro s
    unfold Remote.poll Remote.pollInner
    split
    · rfl
    · split <;> rfl
  · intro s
    unfold RemoteHandle.poll
    split <;> rfl
  · intro s
    unfold Remote.drop
    split <;> rfl
  · intro h d
    cases h <;> rfl

/-- Claim C10: every fire-and-forget spawn implementation provided by
the adapters returns `Ok(())` for every submitted unit of work; the
`SpawnError` branch is never produced. -/
theorem provided_spawns_never_reject :
    ∀ (w : ExecWorld) (t : TaskId),
      (TokioTp.spawn_obj w t).2 = SpawnOutcome.ok
      ∧ (TokioTp.spawn w t).2 = SpawnOutcome.ok
      ∧ (TokioTp.spawn_local w t).2 = SpawnOutcome.ok
      ∧ (TokioCt.spawn_obj w t).2 = SpawnOutcome.ok
      ∧ (TokioCt.spawn_local_obj w t).2 = SpawnOutcome.ok
      ∧ (TokioCt.spawn w t).2 = SpawnOutcome.ok
      ∧ (TokioCt.spawn_local w t).2 = SpawnOutcome.ok
      ∧ (Tokio.spawn w t).2 = SpawnOutcome.ok
      ∧ (Tokio.spawn_local w t).2 = SpawnOutcome.ok
      ∧ (AsyncStd.spawn_obj w t).2 = SpawnOutcome.ok
      ∧ (AsyncStd.spawn_local_obj w t).2 = SpawnOutcome.ok
      ∧ (AsyncGlobal.spawn_obj w t).2 = SpawnOutcome.ok
      ∧ (AsyncGlobal.spawn_local_obj w t).2 = SpawnOutcome.ok
      ∧ (GlommioCt.spawn_obj w t).2 = SpawnOutcome.ok
      ∧ (GlommioCt.spawn_local_obj w t).2 = SpawnOutcome.ok
      ∧ (GlommioCt.spawn w t).2 = SpawnOutcome.ok
      ∧ (GlommioCt.spawn_local w t).2 = SpawnOutcome.ok
      ∧ (Glommio.spawn w t).2 = SpawnOutcome.ok
      ∧ (Glommio.spawn_local w t).2 = SpawnOutcome.ok
      ∧ (Bindgen.spawn_obj w t).2 = SpawnOutcome.ok
      ∧ (Bindgen.spawn_local_obj w t).2 = SpawnOutcome.ok :=
  fun _ _ =>
    ⟨rfl, rfl, rfl, rfl, rfl, rfl, rfl, rfl, rfl, rfl, rfl,
     rfl, rfl, rfl, rfl, rfl, rfl, rfl, rfl, rfl, rfl⟩
